import Mathlib

/-!
Shallow embedding of `src/agent.py` (SSIPMT chatbot backend service): the JSON
data model, the college-data fetcher, the `POST /chat` request handler and the
health-check endpoints, together with theorems settling the specification's
claims about them.

Network effects are made explicit: the outcome of the outbound HTTP GET to the
data source is a `FetchOutcome` parameter, and the LLM provider is an oracle
from (system prompt, user message) to an `LLMOutcome`. The handler result
records, besides status and body, whether the data fetch and the LLM call were
attempted on the path taken.
-/

namespace Agent

/-- JSON values: the data model shared by the remote data source's parsed body
and the FastAPI handlers' JSON responses. Numbers are modelled as integers
(the data shapes used carry strings and integer-like primitives). -/
inductive Json where
  | null : Json
  | bool (b : Bool) : Json
  | num (n : Int) : Json
  | str (s : String) : Json
  | arr (elems : List Json) : Json
  | obj (fields : List (String × Json)) : Json
deriving Repr

/-- First value bound to key `k` in an association list of JSON object fields. -/
def lookupField (fields : List (String × Json)) (k : String) : Option Json :=
  match fields with
  | [] => none
  | (k2, v) :: rest => if k2 = k then some v else lookupField rest k

/-- Whether a JSON value is an object (a Python `dict`) containing key `k`. -/
def Json.hasKey (j : Json) (k : String) : Bool :=
  match j with
  | .obj fields => (lookupField fields k).isSome
  | _ => false

/-- Whether a JSON value is an object, i.e. a Python mapping. -/
def Json.isObj : Json → Bool
  | .obj _ => true
  | _ => false

/-- Outcome of the outbound `requests.get(APPS_SCRIPT_URL)` call:
either the request itself fails (connection error, timeout, ... — a
`requests.exceptions.RequestException`), or a response arrives with an HTTP
status code and a body that either parses as JSON (`some j`) or does not
(`none`; `response.json()` then raises `requests.exceptions.JSONDecodeError`,
a subclass of `RequestException`). -/
inductive FetchOutcome where
  | networkFailure : FetchOutcome
  | response (status : Nat) (body : Option Json) : FetchOutcome
deriving Repr

/-- `requests.Response.raise_for_status` raises an `HTTPError` exactly for
client-error (4xx) and server-error (5xx) status codes. -/
def raise_for_status_raises (status : Nat) : Bool :=
  decide (400 ≤ status ∧ status < 600)

/-- Whether an HTTP status code is a 2xx success code. -/
def is2xx (status : Nat) : Bool :=
  decide (200 ≤ status ∧ status ≤ 299)

/-- Python truthiness of the optional `APPS_SCRIPT_URL` string: `None` and the
empty string are falsy. -/
def truthyUrl : Option String → Bool
  | none => false
  | some u => !u.isEmpty

/-- Error mapping returned by `fetch_college_data` when the request fails. -/
def fetchError : Json :=
  .obj [("error", .str "Could not fetch live data.")]

/-- Error mapping returned by `fetch_college_data` when no URL is configured. -/
def fetchNotConfigured : Json :=
  .obj [("error", .str "Could not fetch live data. APPS_SCRIPT_URL not configured.")]

/-- `fetch_college_data` from `src/agent.py`: guard on the configured URL,
`requests.get`, `raise_for_status`, then `response.json()`; every raised
`RequestException` (network failure, 4xx/5xx from `raise_for_status`, JSON
decode failure) is caught and turned into the fixed error mapping. -/
def fetch_college_data (apps_script_url : Option String)
    (outcome : FetchOutcome) : Json :=
  if truthyUrl apps_script_url = false then
    fetchNotConfigured
  else
    match outcome with
    | .networkFailure => fetchError
    | .response status body =>
      if raise_for_status_raises status then
        fetchError
      else
        match body with
        | none => fetchError
        | some j => j

end Agent

namespace Agent

/-- Modelled from the spec: the third-party `toons` library used by
`toons.dumps` is not part of this repository, so the TOON (Token-Oriented
Object Notation) re-serialization is modelled from the specification's words:
"a custom whitespace/indent-delimited format instead of brace/quote-delimited
JSON ... semantically lossless reformatting of the same JSON tree". A `ToonTok`
is one whitespace/indent-delimited atom of the notation: a primitive literal,
a `key:` introducer for an object field, or a header carrying the declared
length of an array or object. -/
inductive ToonTok where
  | tnull : ToonTok
  | tbool (b : Bool) : ToonTok
  | tnum (n : Int) : ToonTok
  | tstr (s : String) : ToonTok
  | key (k : String) : ToonTok
  | arrHeader (len : Nat) : ToonTok
  | objHeader (len : Nat) : ToonTok
deriving Repr, DecidableEq

mutual

/-- Modelled from the spec: TOON serialization of a JSON tree into the
token stream of the whitespace-delimited notation. -/
def toonEncode : Json → List ToonTok
  | .null => [.tnull]
  | .bool b => [.tbool b]
  | .num n => [.tnum n]
  | .str s => [.tstr s]
  | .arr xs => .arrHeader xs.length :: toonEncodeList xs
  | .obj kvs => .objHeader kvs.length :: toonEncodeObj kvs

/-- TOON serialization of the elements of a JSON array, in order. -/
def toonEncodeList : List Json → List ToonTok
  | [] => []
  | x :: xs => toonEncode x ++ toonEncodeList xs

/-- TOON serialization of the fields of a JSON object: each key introducer
followed by the serialized value. -/
def toonEncodeObj : List (String × Json) → List ToonTok
  | [] => []
  | (k, v) :: kvs => .key k :: (toonEncode v ++ toonEncodeObj kvs)

end

/-- Concrete text of one TOON token, for assembling the prompt string. -/
def renderTok : ToonTok → String
  | .tnull => "null"
  | .tbool true => "true"
  | .tbool false => "false"
  | .tnum n => toString n
  | .tstr s => s
  | .key k => k ++ ":"
  | .arrHeader len => "[" ++ toString len ++ "]"
  | .objHeader _ => ""

/-- Modelled from the spec: `toons.dumps`, the compact re-serialization of a
JSON document sent to the LLM inside the prompt. -/
def toonDumps (j : Json) : String :=
  String.intercalate "\n" ((toonEncode j).map renderTok)

mutual

/-- A compatible TOON decoder: parse one JSON value off the front of a token
stream, returning it and the unconsumed tail. The `fuel` argument bounds the
nesting depth explored and makes the recursion structural; the round-trip
theorem shows `toonFuel` of the document is always enough. -/
def toonParse : Nat → List ToonTok → Option (Json × List ToonTok)
  | 0, _ => none
  | _ + 1, [] => none
  | _ + 1, .tnull :: rest => some (.null, rest)
  | _ + 1, .tbool b :: rest => some (.bool b, rest)
  | _ + 1, .tnum n :: rest => some (.num n, rest)
  | _ + 1, .tstr s :: rest => some (.str s, rest)
  | fuel + 1, .arrHeader len :: rest =>
    match toonParseList fuel len rest with
    | some (xs, r) => some (.arr xs, r)
    | none => none
  | fuel + 1, .objHeader len :: rest =>
    match toonParseObj fuel len rest with
    | some (kvs, r) => some (.obj kvs, r)
    | none => none
  | _ + 1, .key _ :: _ => none

/-- Parse exactly `n` JSON values (the declared array length) off the front
of a token stream. -/
def toonParseList : Nat → Nat → List ToonTok → Option (List Json × List ToonTok)
  | _, 0, rest => some ([], rest)
  | 0, _ + 1, _ => none
  | fuel + 1, n + 1, rest =>
    match toonParse fuel rest with
    | some (x, r) =>
      match toonParseList fuel n r with
      | some (xs, r2) => some (x :: xs, r2)
      | none => none
    | none => none

/-- Parse exactly `n` key-introduced JSON object fields (the declared object
length) off the front of a token stream. -/
def toonParseObj : Nat → Nat → List ToonTok →
    Option (List (String × Json) × List ToonTok)
  | _, 0, rest => some ([], rest)
  | 0, _ + 1, _ => none
  | fuel + 1, n + 1, .key k :: rest =>
    match toonParse fuel rest with
    | some (v, r) =>
      match toonParseObj fuel n r with
      | some (kvs, r2) => some ((k, v) :: kvs, r2)
      | none => none
    | none => none
  | _ + 1, _ + 1, _ => none

end

mutual

/-- Fuel sufficient for `toonParse` to decode the serialization of a document. -/
def toonFuel : Json → Nat
  | .null => 1
  | .bool _ => 1
  | .num _ => 1
  | .str _ => 1
  | .arr xs => toonFuelList xs + 1
  | .obj kvs => toonFuelObj kvs + 1

/-- Fuel sufficient to decode the serialized elements of an array. -/
def toonFuelList : List Json → Nat
  | [] => 0
  | x :: xs => toonFuel x + toonFuelList xs + 1

/-- Fuel sufficient to decode the serialized fields of an object. -/
def toonFuelObj : List (String × Json) → Nat
  | [] => 0
  | (_, v) :: kvs => toonFuel v + toonFuelObj kvs + 1

end

/-- The configured Gemini provider client (`genai.GenerativeModel`), present
only when `GOOGLE_API_KEY` was set at startup; otherwise `model` is `None`. -/
structure GenerativeModel where
  name : String
deriving Repr, DecidableEq

/-- Process-wide configuration established at startup: the optional
`APPS_SCRIPT_URL` and the optional provider client `model`. -/
structure AgentConfig where
  apps_script_url : Option String
  model : Option GenerativeModel
deriving Repr, DecidableEq

/-- Outcome of the provider communication inside the handler's `try` block:
either the whole of `start_chat`, `send_message` and reading `response.text`
succeeds with the reply text, or some step raises an exception. -/
inductive LLMOutcome where
  | success (text : String) : LLMOutcome
  | failure : LLMOutcome
deriving Repr, DecidableEq

/-- An LLM provider oracle: the outcome of the provider communication as a
function of the system prompt seeded into the session and the user message
sent on it. -/
abbrev LLMOracle : Type := String → String → LLMOutcome

/-- Result of one `POST /chat` request: HTTP status, JSON body, and a trace of
whether the handler attempted the data fetch and the LLM call on the path it
took. -/
structure ChatResult where
  status : Nat
  body : Json
  fetch_attempted : Bool
  llm_called : Bool
deriving Repr

/-- The fixed reply when the provider client is not configured. -/
def notConfiguredReply : String :=
  "Error: The chatbot is not configured correctly. Please check server logs."

/-- The fixed prompt-for-input reply for an empty message. -/
def promptForInputReply : String := "Please provide a message."

/-- The fixed friendly-error reply when provider communication raises. -/
def friendlyErrorReply : String :=
  "Sorry, something went wrong on my end. Please try again."

/-- A handler reply body: a JSON object with the single key `"reply"`. -/
def jsonReply (text : String) : Json := .obj [("reply", .str text)]

/-- The `SYSTEM_PROMPT` f-string of the handler, instantiated with the
TOON-serialized college data. -/
def system_prompt (college_data_string : String) : String :=
  "\n    You are \"Sankalp\", a friendly, multilingual, and helpful AI assistant for SSIPMT.\n\n    Your primary goal is to answer user questions based *only* on the information provided below.\n    - Do not make up information or use external knowledge.\n    - If the answer is not found in the provided data, politely say that you don't have that information in the user's language.\n    - Detect the user's language and respond in the same language.\n    - Be robust to spelling and grammatical errors in the user's query. Try to understand the intent.\n    - Format your answers clearly, using markdown for bolding and lists when appropriate.\n\n    Here is the college data in TOON (Token-Oriented Object Notation) format:\n    ---\n    "
    ++ college_data_string ++ "\n    ---\n    "

/-- The `POST /chat` handler `chat` from `src/agent.py`, after body
validation has bound `chat_message.message`:
1. if the provider client is `None`, the fixed not-configured reply;
2. if the message is falsy (the empty string), the fixed prompt-for-input
   reply;
3. otherwise fetch the college data, serialize it with `toons.dumps`, build
   the system prompt, and run the provider session; its reply text on
   success, the fixed friendly-error reply if any step raises.
Every branch returns HTTP 200 with a `{"reply": ...}` JSON body. -/
def chat (cfg : AgentConfig) (message : String) (fetchO : FetchOutcome)
    (llm : LLMOracle) : ChatResult :=
  match cfg.model with
  | none => ⟨200, jsonReply notConfiguredReply, false, false⟩
  | some _ =>
    if message.isEmpty then
      ⟨200, jsonReply promptForInputReply, false, false⟩
    else
      let college_data := fetch_college_data cfg.apps_script_url fetchO
      let college_data_string := toonDumps college_data
      match llm (system_prompt college_data_string) message with
      | .success t => ⟨200, jsonReply t, true, true⟩
      | .failure => ⟨200, jsonReply friendlyErrorReply, true, true⟩

/-- Pydantic validation of the request body against `ChatMessage`: the body
must be a JSON object whose `message` field is present and a string (extra
fields are ignored); otherwise FastAPI rejects the request with status 422
before the handler runs. -/
def parseChatMessage (body : Json) : Option String :=
  match body with
  | .obj fields =>
    match lookupField fields "message" with
    | some (.str s) => some s
    | _ => none
  | _ => none

/-- The FastAPI-level `POST /chat` endpoint: validate the body against
`ChatMessage`, answering 422 with a validation-detail body on failure
(abstracted here as an empty detail list), and run the handler otherwise. -/
def post_chat (cfg : AgentConfig) (body : Json) (fetchO : FetchOutcome)
    (llm : LLMOracle) : ChatResult :=
  match parseChatMessage body with
  | none => ⟨422, .obj [("detail", .arr [])], false, false⟩
  | some msg => chat cfg msg fetchO llm

/-- A raw HTTP response: status code and body text. -/
structure RawResponse where
  status : Nat
  body : String
deriving Repr, DecidableEq

/-- The `HEAD /` handler `status_check`: `Response(status_code=200)`, a
response with no body. -/
def status_check : RawResponse := ⟨200, ""⟩

/-- The `GET /` handler `read_root`. -/
def read_root : Json := .obj [("status", .str "Chatbot server is running")]

/-- Whether a string is non-empty and consists only of whitespace, i.e. is
truthy in Python while carrying no visible content. -/
def whitespaceOnly (s : String) : Bool :=
  !s.isEmpty && s.toList.all Char.isWhitespace

/-- A provider oracle whose communication always raises. -/
def llmFail : LLMOracle := fun _ _ => LLMOutcome.failure

/-- A provider oracle that always answers with a fixed text. -/
def llmCanned : LLMOracle := fun _ _ => LLMOutcome.success "How can I help you?"

/-- Every JSON document needs at least one unit of fuel to decode. -/
theorem toonFuel_pos (j : Json) : 1 ≤ toonFuel j := by
  cases j <;> simp [toonFuel]

/-- Decoding inverts encoding: with enough fuel, parsing the serialization of
a document followed by any trailing tokens returns the document and leaves the
trailing tokens unconsumed — simultaneously for documents, array elements and
object fields, by strong induction on the fuel. -/
theorem toonParse_encode_aux (fuel : Nat) :
    (∀ j rest, toonFuel j ≤ fuel →
      toonParse fuel (toonEncode j ++ rest) = some (j, rest)) ∧
    (∀ xs rest, toonFuelList xs ≤ fuel →
      toonParseList fuel xs.length (toonEncodeList xs ++ rest) = some (xs, rest)) ∧
    (∀ kvs rest, toonFuelObj kvs ≤ fuel →
      toonParseObj fuel kvs.length (toonEncodeObj kvs ++ rest) = some (kvs, rest)) := by
  induction fuel using Nat.strong_induction_on with
  | _ fuel ih =>
  cases fuel with
  | zero =>
    refine ⟨?_, ?_, ?_⟩
    · intro j rest h
      have := toonFuel_pos j
      omega
    · intro xs rest h
      cases xs with
      | nil => rfl
      | cons x xs =>
        simp only [toonFuelList] at h
        omega
    · intro kvs rest h
      cases kvs with
      | nil => rfl
      | cons kv kvs =>
        obtain ⟨k, v⟩ := kv
        simp only [toonFuelObj] at h
        omega
  | succ fuel =>
    obtain ⟨ihP, ihL, ihO⟩ := ih fuel (Nat.lt_succ_self fuel)
    refine ⟨?_, ?_, ?_⟩
    · intro j rest h
      cases j with
      | null => rfl
      | bool b => rfl
      | num n => rfl
      | str s => rfl
      | arr xs =>
        have hx : toonFuelList xs ≤ fuel := by
          simp only [toonFuel] at h
          omega
        simp [toonEncode, toonParse, ihL xs rest hx]
      | obj kvs =>
        have hx : toonFuelObj kvs ≤ fuel := by
          simp only [toonFuel] at h
          omega
        simp [toonEncode, toonParse, ihO kvs rest hx]
    · intro xs rest h
      cases xs with
      | nil => rfl
      | cons x xs =>
        simp only [toonFuelList] at h
        have hx : toonFuel x ≤ fuel := by omega
        have hxs : toonFuelList xs ≤ fuel := by omega
        simp [toonEncodeList, toonParseList, List.append_assoc,
          ihP x (toonEncodeList xs ++ rest) hx, ihL xs rest hxs]
    · intro kvs rest h
      cases kvs with
      | nil => rfl
      | cons kv kvs =>
        obtain ⟨k, v⟩ := kv
        simp only [toonFuelObj] at h
        have hv : toonFuel v ≤ fuel := by omega
        have hkvs : toonFuelObj kvs ≤ fuel := by omega
        simp [toonEncodeObj, toonParseObj, List.append_assoc,
          ihP v (toonEncodeObj kvs ++ rest) hv, ihO kvs rest hkvs]

/-- C4: whenever `APPS_SCRIPT_URL` is unset (`None`), every call to the data
fetcher returns the fixed error mapping — in particular a mapping containing
the key `"error"` — for every possible outcome of the (never attempted)
network request; the fetcher is a total function, so it never raises. -/
theorem fetch_unset_url_returns_error_mapping (outcome : FetchOutcome) :
    fetch_college_data none outcome = fetchNotConfigured ∧
    (fetch_college_data none outcome).hasKey "error" = true := by
  refine ⟨rfl, ?_⟩
  rfl

/-- On every path the handler returns HTTP 200 and a `{"reply": ...}` body
carrying a single string. -/
theorem chat_status_200 (cfg : AgentConfig) (msg : String)
    (fetchO : FetchOutcome) (llm : LLMOracle) :
    (chat cfg msg fetchO llm).status = 200 ∧
    ∃ s : String, (chat cfg msg fetchO llm).body = jsonReply s := by
  obtain ⟨url, model⟩ := cfg
  cases model with
  | none => exact ⟨rfl, notConfiguredReply, rfl⟩
  | some m =>
    by_cases hm : msg.isEmpty = true
    · refine ⟨?_, promptForInputReply, ?_⟩ <;> simp [chat, hm]
    · cases hllm : llm (system_prompt (toonDumps (fetch_college_data url fetchO))) msg with
      | success t => refine ⟨?_, t, ?_⟩ <;> simp [chat, hm, hllm]
      | failure => refine ⟨?_, friendlyErrorReply, ?_⟩ <;> simp [chat, hm, hllm]

/-- C1 counterexample: the claim fails as stated. With the provider client
unconfigured, an empty message gets the fixed not-configured reply, not the
prompt-for-input reply; and a body missing the `message` field is rejected
with status 422 before the handler runs, so it gets no reply at all. -/
theorem chat_empty_message_claim_counterexample :
    (chat ⟨some "https://example.com/data", none⟩ "" FetchOutcome.networkFailure
        llmFail).body = jsonReply notConfiguredReply ∧
    notConfiguredReply ≠ promptForInputReply ∧
    (post_chat ⟨some "https://example.com/data", some ⟨"gemini-2.0-flash-lite"⟩⟩
        (Json.obj []) FetchOutcome.networkFailure llmFail).status = 422 := by
  refine ⟨rfl, ?_, rfl⟩
  decide

/-- C1 (amended): for every `POST /chat` request whose `message` field is
present and empty, the handler performs no network call (neither the data
fetch nor the LLM call), and, when the provider client is configured, returns
the fixed prompt-for-input reply; a body whose `message` field is missing is
rejected by validation with status 422 before the handler runs. -/
theorem chat_empty_message_no_network (cfg : AgentConfig)
    (fetchO : FetchOutcome) (llm : LLMOracle) :
    (chat cfg "" fetchO llm).fetch_attempted = false ∧
    (chat cfg "" fetchO llm).llm_called = false ∧
    (∀ m : GenerativeModel, cfg.model = some m →
      (chat cfg "" fetchO llm).body = jsonReply promptForInputReply) ∧
    (∀ body : Json, parseChatMessage body = none →
      (post_chat cfg body fetchO llm).status = 422) := by
  obtain ⟨url, model⟩ := cfg
  refine ⟨?_, ?_, ?_, ?_⟩
  · cases model <;> rfl
  · cases model <;> rfl
  · intro m hm
    simp only [] at hm
    cases model with
    | none => exact absurd hm (by simp)
    | some m2 => rfl
  · intro body hb
    simp [post_chat, hb]

/-- C1 witness: at a concrete configured state, the empty message yields the
prompt-for-input reply, and a body without `message` yields status 422. -/
theorem chat_empty_message_no_network_witness :
    (chat ⟨some "https://example.com/data", some ⟨"gemini-2.0-flash-lite"⟩⟩ ""
        FetchOutcome.networkFailure llmFail).body = jsonReply promptForInputReply ∧
    (post_chat ⟨some "https://example.com/data", some ⟨"gemini-2.0-flash-lite"⟩⟩
        (Json.obj [("text", Json.str "hi")]) FetchOutcome.networkFailure
        llmFail).status = 422 :=
  ⟨(chat_empty_message_no_network _ FetchOutcome.networkFailure llmFail).2.2.1
      ⟨"gemini-2.0-flash-lite"⟩ rfl,
   (chat_empty_message_no_network _ FetchOutcome.networkFailure llmFail).2.2.2
      (Json.obj [("text", Json.str "hi")]) rfl⟩

/-- C2: when the provider client is `None`, every `POST /chat` request gets
the fixed not-configured reply with status 200 — never a 5xx — whatever the
message, the fetch outcome and the provider oracle. -/
theorem chat_not_configured_fixed_reply (url : Option String) (msg : String)
    (fetchO : FetchOutcome) (llm : LLMOracle) :
    chat ⟨url, none⟩ msg fetchO llm
      = ⟨200, jsonReply notConfiguredReply, false, false⟩ := rfl

/-- C3: whenever the provider communication inside the `try` block raises
(session start, message send, or reading the reply text), the handler returns
the fixed friendly-error reply with status 200, surfacing no exception detail. -/
theorem chat_provider_exception_fixed_reply (cfg : AgentConfig) (msg : String)
    (fetchO : FetchOutcome) (llm : LLMOracle) (m : GenerativeModel)
    (hm : cfg.model = some m) (hmsg : msg.isEmpty = false)
    (hfail : llm (system_prompt (toonDumps
        (fetch_college_data cfg.apps_script_url fetchO))) msg
      = LLMOutcome.failure) :
    chat cfg msg fetchO llm = ⟨200, jsonReply friendlyErrorReply, true, true⟩ := by
  simp [chat, hm, hmsg, hfail]

/-- C3 witness: a concrete configured request whose provider call raises gets
exactly the friendly-error reply. -/
theorem chat_provider_exception_fixed_reply_witness :
    chat ⟨some "https://example.com/data", some ⟨"gemini-2.0-flash-lite"⟩⟩ "Hi"
        FetchOutcome.networkFailure llmFail
      = ⟨200, jsonReply friendlyErrorReply, true, true⟩ :=
  chat_provider_exception_fixed_reply _ "Hi" FetchOutcome.networkFailure llmFail
    ⟨"gemini-2.0-flash-lite"⟩ rfl rfl rfl

/-- C5 counterexample: the claim fails as stated for non-2xx statuses outside
the 4xx/5xx range. A 300-status response whose body is valid JSON passes
`raise_for_status` and its body is returned as-is, with no `error` key. -/
theorem fetch_non2xx_claim_counterexample :
    is2xx 300 = false ∧
    fetch_college_data (some "https://example.com/data")
        (FetchOutcome.response 300 (some (Json.obj [("a", Json.num 1)])))
      = Json.obj [("a", Json.num 1)] ∧
    (Json.obj [("a", Json.num 1)]).hasKey "error" = false := by
  refine ⟨rfl, ?_, rfl⟩
  rfl

/-- C5 (amended): for every response from the remote data endpoint whose
status is 4xx or 5xx — exactly the statuses `raise_for_status` raises for —
or whose body is not valid JSON, the fetcher returns the fixed error mapping,
which contains the key `error`, rather than raising. -/
theorem fetch_error_response_returns_error_mapping (url : Option String)
    (status : Nat) (body : Option Json)
    (hu : truthyUrl url = true)
    (h : raise_for_status_raises status = true ∨ body = none) :
    fetch_college_data url (FetchOutcome.response status body) = fetchError ∧
    (fetch_college_data url (FetchOutcome.response status body)).hasKey "error"
      = true := by
  have hmain : fetch_college_data url (FetchOutcome.response status body)
      = fetchError := by
    rcases h with h | h
    · simp [fetch_college_data, hu, h]
    · subst h
      cases hr : raise_for_status_raises status <;>
        simp [fetch_college_data, hu, hr]
  exact ⟨hmain, by rw [hmain]; rfl⟩

/-- C5 witness: a concrete 500-status response with an unparseable body yields
the error mapping. -/
theorem fetch_error_response_returns_error_mapping_witness :
    fetch_college_data (some "https://example.com/data")
        (FetchOutcome.response 500 none) = fetchError ∧
    (fetch_college_data (some "https://example.com/data")
        (FetchOutcome.response 500 none)).hasKey "error" = true :=
  fetch_error_response_returns_error_mapping (some "https://example.com/data")
    500 none rfl (Or.inl rfl)

/-- C6: for every `POST /chat` request with a well-formed body — a JSON object
whose `message` field is a string — the response has status 200 and its body
is a JSON object carrying a single string under the key `reply`, on every
path including all failure modes. -/
theorem post_chat_wellformed_always_200_reply (cfg : AgentConfig) (body : Json)
    (fetchO : FetchOutcome) (llm : LLMOracle) (msg : String)
    (h : parseChatMessage body = some msg) :
    (post_chat cfg body fetchO llm).status = 200 ∧
    ∃ s : String, (post_chat cfg body fetchO llm).body = jsonReply s := by
  simp only [post_chat, h]
  exact chat_status_200 cfg msg fetchO llm

/-- C6 witness: a concrete well-formed request (whose provider call happens to
raise) still gets status 200 and a single-string `reply` body. -/
theorem post_chat_wellformed_always_200_reply_witness :
    (post_chat ⟨some "https://example.com/data", some ⟨"gemini-2.0-flash-lite"⟩⟩
        (Json.obj [("message", Json.str "What are the hostel fees?")])
        FetchOutcome.networkFailure llmFail).status = 200 ∧
    ∃ s : String,
      (post_chat ⟨some "https://example.com/data", some ⟨"gemini-2.0-flash-lite"⟩⟩
        (Json.obj [("message", Json.str "What are the hostel fees?")])
        FetchOutcome.networkFailure llmFail).body = jsonReply s :=
  post_chat_wellformed_always_200_reply _
    (Json.obj [("message", Json.str "What are the hostel fees?")])
    FetchOutcome.networkFailure llmFail "What are the hostel fees?" rfl

/-- C7: round-trip — the compact TOON re-serialization of a JSON document,
when parsed by the compatible decoder with enough fuel, reconstructs the
original document exactly, consuming the whole token stream: the reformatting
is semantically lossless for nested mappings, sequences and primitives. -/
theorem toon_roundtrip (j : Json) :
    toonParse (toonFuel j) (toonEncode j) = some (j, []) := by
  have h := (toonParse_encode_aux (toonFuel j)).1 j [] (le_refl _)
  simpa using h

/-- C8 counterexample: the claim fails as stated. With a configured URL and a
2xx response whose body is a JSON array, the fetcher returns the array itself,
which is not a mapping. -/
theorem fetch_returns_mapping_claim_counterexample :
    fetch_college_data (some "https://example.com/data")
        (FetchOutcome.response 200 (some (Json.arr [Json.num 1, Json.num 2])))
      = Json.arr [Json.num 1, Json.num 2] ∧
    (Json.arr [Json.num 1, Json.num 2]).isObj = false :=
  ⟨rfl, rfl⟩

/-- C8 (amended): for every call with a configured URL, the fetcher performs
the HTTP GET and, on a non-raising response with a JSON-parseable body,
returns that parsed body itself; accordingly, the returned value is a mapping
on every path provided the remote body, whenever it parses, is a JSON
object (on all failure paths it is the fixed error mapping). -/
theorem fetch_configured_returns_body_or_error (url : Option String)
    (outcome : FetchOutcome) (hu : truthyUrl url = true) :
    (∀ status b, outcome = FetchOutcome.response status (some b) →
      raise_for_status_raises status = false →
      fetch_college_data url outcome = b) ∧
    ((∀ status b, outcome = FetchOutcome.response status (some b) →
        b.isObj = true) →
      (fetch_college_data url outcome).isObj = true) := by
  constructor
  · intro status b hout hr
    subst hout
    simp [fetch_college_data, hu, hr]
  · intro hb
    cases outcome with
    | networkFailure => simp [fetch_college_data, hu, fetchError, Json.isObj]
    | response status b =>
      cases b with
      | none =>
        cases hr : raise_for_status_raises status <;>
          simp [fetch_college_data, hu, hr, fetchError, Json.isObj]
      | some j =>
        have hj := hb status j rfl
        cases hr : raise_for_status_raises status with
        | false => simpa [fetch_college_data, hu, hr] using hj
        | true => simp [fetch_college_data, hu, hr, fetchError, Json.isObj]

/-- C8 witness: a concrete 200-status response carrying a JSON object body is
returned as that mapping. -/
theorem fetch_configured_returns_body_or_error_witness :
    fetch_college_data (some "https://example.com/data")
        (FetchOutcome.response 200 (some (Json.obj [("hostel_fee", Json.str "50000")])))
      = Json.obj [("hostel_fee", Json.str "50000")] ∧
    (fetch_college_data (some "https://example.com/data")
        (FetchOutcome.response 200 (some (Json.obj [("hostel_fee", Json.str "50000")])))).isObj
      = true := by
  have h := fetch_configured_returns_body_or_error (some "https://example.com/data")
    (FetchOutcome.response 200 (some (Json.obj [("hostel_fee", Json.str "50000")]))) rfl
  exact ⟨h.1 200 (Json.obj [("hostel_fee", Json.str "50000")]) rfl rfl,
    h.2 (fun status b hb => by cases hb; rfl)⟩

/-- C9: the `HEAD /` handler returns status 200 with an empty body. -/
theorem status_check_200_empty_body :
    status_check.status = 200 ∧ status_check.body = "" :=
  ⟨rfl, rfl⟩

/-- C10 counterexample: the claim fails as stated. With the provider client
unconfigured, a whitespace-only message does not proceed through the full
path: the handler performs neither the data fetch nor the LLM call. -/
theorem whitespace_full_path_claim_counterexample :
    whitespaceOnly " " = true ∧
    (chat ⟨some "https://example.com/data", none⟩ " " FetchOutcome.networkFailure
        llmFail).fetch_attempted = false ∧
    (chat ⟨some "https://example.com/data", none⟩ " " FetchOutcome.networkFailure
        llmFail).llm_called = false := by
  refine ⟨?_, rfl, rfl⟩
  decide

/-- C10 (amended): the non-empty check is Python truthiness, so when the
provider client is configured, every whitespace-only message passes it: the
handler does not return the prompt-for-input reply from the empty-message
branch but fetches the remote data, sends the whitespace message to the LLM,
and on success returns the provider's text. -/
theorem whitespace_message_full_path (cfg : AgentConfig) (msg : String)
    (fetchO : FetchOutcome) (llm : LLMOracle) (m : GenerativeModel)
    (hm : cfg.model = some m) (hw : whitespaceOnly msg = true) :
    (chat cfg msg fetchO llm).fetch_attempted = true ∧
    (chat cfg msg fetchO llm).llm_called = true ∧
    (∀ t, llm (system_prompt (toonDumps
        (fetch_college_data cfg.apps_script_url fetchO))) msg
        = LLMOutcome.success t →
      (chat cfg msg fetchO llm).body = jsonReply t) := by
  have hmsg : msg.isEmpty = false := by
    have h1 := ((Bool.and_eq_true _ _).mp hw).1
    simpa using h1
  refine ⟨?_, ?_, ?_⟩
  · cases hllm : llm (system_prompt (toonDumps
        (fetch_college_data cfg.apps_script_url fetchO))) msg <;>
      simp [chat, hm, hmsg, hllm]
  · cases hllm : llm (system_prompt (toonDumps
        (fetch_college_data cfg.apps_script_url fetchO))) msg <;>
      simp [chat, hm, hmsg, hllm]
  · intro t ht
    simp [chat, hm, hmsg, ht]

/-- C10 witness: a concrete configured request whose message is a single
space fetches the data, reaches the LLM, and returns the canned success text. -/
theorem whitespace_message_full_path_witness :
    (chat ⟨some "https://example.com/data", some ⟨"gemini-2.0-flash-lite"⟩⟩ " "
        FetchOutcome.networkFailure llmCanned).fetch_attempted = true ∧
    (chat ⟨some "https://example.com/data", some ⟨"gemini-2.0-flash-lite"⟩⟩ " "
        FetchOutcome.networkFailure llmCanned).llm_called = true ∧
    (chat ⟨some "https://example.com/data", some ⟨"gemini-2.0-flash-lite"⟩⟩ " "
        FetchOutcome.networkFailure llmCanned).body
      = jsonReply "How can I help you?" := by
  have h := whitespace_message_full_path
    ⟨some "https://example.com/data", some ⟨"gemini-2.0-flash-lite"⟩⟩ " "
    FetchOutcome.networkFailure llmCanned ⟨"gemini-2.0-flash-lite"⟩ rfl (by decide)
  exact ⟨h.1, h.2.1, h.2.2 "How can I help you?" rfl⟩

end Agent
